import Mathlib

/-!
Shallow embedding of the core of liballuris (src/liballuris/liballuris.c):
the bulk-transfer transaction primitive, the fixed-point frame codec, the
per-command functions, and the start/stop measurement polling loops.

The USB transport (libusb_bulk_transfer) is modelled as an oracle
(`Transport`) supplying, for each phase, the libusb return code, the number
of bytes actually transferred, and the bytes delivered on the IN endpoint.
The global buffers out_buf/in_buf are passed explicitly; in_buf is a byte
list indexed with `List.getD` (stale bytes beyond the overlaid prefix are
preserved, as with the C global array).
-/

namespace Alluris

/-- Modelled from the spec: protocol-layer error codes of the library live in
the header liballuris.h, which is not under src/.  Per the spec they are
"small non-negative integers distinct from LIBUSB_SUCCESS(0)", with success
being 0; the concrete nonzero values are immaterial to the claims, only
their distinctness from 0 and from each other matters. -/
def LIBALLURIS_SUCCESS : Int := 0

/-- Modelled from the spec: protocol-layer malformed-reply code (nonzero). -/
def LIBALLURIS_MALFORMED_REPLY : Int := 1

/-- Modelled from the spec: protocol-layer device-busy code (nonzero). -/
def LIBALLURIS_DEVICE_BUSY : Int := 2

/-- Modelled from the spec: protocol-layer out-of-range code (nonzero). -/
def LIBALLURIS_OUT_OF_RANGE : Int := 3

/-- libusb success code (0). -/
def LIBUSB_SUCCESS : Int := 0

/-- libusb overflow error code (negative transport-layer code). -/
def LIBUSB_ERROR_OVERFLOW : Int := -8

/-- Modelled from the spec: the fixed outbound buffer capacity
DEFAULT_SEND_BUF_LEN is defined in the header liballuris.h, which is not
under src/.  The spec speaks of "two fixed-size transfer buffers"; the value
64 matches the 64-byte scratch read buffer used by liballuris_clear_RX in
the source.  Only "fits / does not fit" matters to the claims. -/
def DEFAULT_SEND_BUF_LEN : Nat := 64

/-- Modelled from the spec: the fixed inbound buffer capacity
DEFAULT_RECV_BUF_LEN (see DEFAULT_SEND_BUF_LEN). -/
def DEFAULT_RECV_BUF_LEN : Nat := 64

/-- char_to_uint16 (liballuris.c:31): memcpy of 2 little-endian bytes into a
C `short`, i.e. the signed 16-bit interpretation of b0 + 256*b1. -/
def char_to_uint16 (b0 b1 : Nat) : Int :=
  let u : Nat := b0 % 256 + 256 * (b1 % 256)
  if u ≥ 32768 then (u : Int) - 65536 else (u : Int)

/-- char_to_uint24 (liballuris.c:39): memcpy of 3 little-endian bytes into a
C `int`.  The fourth byte of the destination int is left uninitialized by
the C code; it is modelled as 0, the only value under which the function
computes the 24-bit quantity the sign-extension step expects. -/
def char_to_uint24 (b0 b1 b2 : Nat) : Int :=
  ((b0 % 256 + 256 * (b1 % 256) + 65536 * (b2 % 256) : Nat) : Int)

/-- char_to_int24 (liballuris.c:47): manual sign extension: if the unsigned
24-bit value exceeds 2^23-1, subtract 2^24. -/
def char_to_int24 (b0 b1 b2 : Nat) : Int :=
  let ret := char_to_uint24 b0 b1 b2
  if ret > 8388607 then ret - 16777216 else ret

/-- The 3 low-order little-endian bytes of the two's-complement
representation of an int, as produced by `memcpy (out_buf+3, &limit, 3)` in
the limit setters (liballuris.c:657). -/
def int24_bytes (v : Int) : Nat × Nat × Nat :=
  let u : Nat := (v % 16777216).toNat
  (u % 256, u / 256 % 256, u / 65536)

/-- Outcome of one libusb bulk-transfer pair, supplied by the environment:
return code and actual byte count of the OUT write, return code, actual byte
count and delivered bytes of the IN read. -/
structure Transport where
  writeR : Int
  writeActual : Nat
  readR : Int
  readActual : Nat
  readData : List Nat

/-- Overlay the first `n` received bytes onto the old buffer contents, as
libusb does with in_buf: bytes beyond `n` keep their stale values. -/
def writeBytes (old new : List Nat) (n : Nat) : List Nat :=
  new.take n ++ old.drop n

/-- Result of the transaction primitive: `fatal` is the exit(-1) on a
buffer-capacity violation, `assertFail` the failed assert(out_buf[1] ==
send_len), and `done r inBuf` a normal return of code `r` with the in_buf
contents after the call. -/
inductive XferResult where
  | fatal
  | assertFail
  | done (r : Int) (inBuf : List Nat)
deriving DecidableEq, Repr

/-- liballuris_device_bulk_transfer (liballuris.c:99-178), the send/receive
wrapper.  Send phase: any write error or short write returns the write code
immediately (note: a short write with LIBUSB_SUCCESS returns 0).  Receive
phase: overflow returns immediately; other read errors or short reads fall
through to the reply check; when a send occurred and the read code is 0, a
command-echo or declared-length/actual mismatch yields the malformed-reply
code; otherwise the read code is returned. -/
def liballuris_device_bulk_transfer (out_buf in_buf : List Nat)
    (send_len reply_len : Nat) (t : Transport) : XferResult :=
  if send_len > DEFAULT_SEND_BUF_LEN then .fatal
  else if reply_len > DEFAULT_RECV_BUF_LEN then .fatal
  else if send_len > 0 ∧ out_buf.getD 1 0 ≠ send_len then .assertFail
  else if send_len > 0 ∧ (t.writeR ≠ LIBUSB_SUCCESS ∨ t.writeActual ≠ send_len) then
    .done t.writeR in_buf
  else if reply_len > 0 then
    let in2 := writeBytes in_buf (t.readData.map (· % 256)) t.readActual
    if (t.readR ≠ LIBUSB_SUCCESS ∨ t.readActual ≠ reply_len) ∧
        t.readR = LIBUSB_ERROR_OVERFLOW then
      .done t.readR in2
    else if t.readR = 0 ∧ send_len > 0 ∧
        (in2.getD 0 0 ≠ out_buf.getD 0 0 ∨ in2.getD 1 0 ≠ t.readActual) then
      .done LIBALLURIS_MALFORMED_REPLY in2
    else
      .done t.readR in2
  else
    .done (if send_len > 0 then t.writeR else 0) in_buf

/-- Result of one command function: `fatal`/`assertFail` propagate the
process-aborting outcomes of the transaction primitive; `ret r out` is a
normal return of code `r` with observable output `out` (final in_buf
contents, value written to the caller's output location, ...). -/
inductive Result (α : Type) where
  | fatal
  | assertFail
  | ret (r : Int) (out : α)
deriving DecidableEq, Repr

/-- liballuris_serial_number (liballuris.c:372-387).  Output observable:
final in_buf, and the value snprintf-formatted into the caller's buffer as
(letter byte in_buf[5], 16-bit number), or `none` when the buffer was left
unwritten. -/
def liballuris_serial_number (in_buf : List Nat) (t : Transport) :
    Result (List Nat × Option (Nat × Int)) :=
  let out_buf : List Nat := [0x08, 3, 6]
  match liballuris_device_bulk_transfer out_buf in_buf 3 6 t with
  | .fatal => .fatal
  | .assertFail => .assertFail
  | .done r in2 =>
    if r = LIBALLURIS_SUCCESS then
      let tmp := char_to_uint16 (in2.getD 3 0) (in2.getD 4 0)
      if tmp = -1 then .ret LIBALLURIS_DEVICE_BUSY (in2, none)
      else .ret r (in2, some (in2.getD 5 0, tmp))
    else .ret r (in2, none)

/-- liballuris_digits (liballuris.c:404-417).  Output observable: final
in_buf, and the value written through the caller's pointer v (`none` when v
was left unwritten).  Note the C writes *v before the sentinel test. -/
def liballuris_digits (in_buf : List Nat) (t : Transport) :
    Result (List Nat × Option Int) :=
  let out_buf : List Nat := [0x08, 3, 3]
  match liballuris_device_bulk_transfer out_buf in_buf 3 6 t with
  | .fatal => .fatal
  | .assertFail => .assertFail
  | .done r in2 =>
    if r = LIBALLURIS_SUCCESS then
      let v := char_to_int24 (in2.getD 3 0) (in2.getD 4 0) (in2.getD 5 0)
      if v = -1 then .ret LIBALLURIS_DEVICE_BUSY (in2, some v)
      else .ret r (in2, some v)
    else .ret r (in2, none)

/-- liballuris_raw_value (liballuris.c:427-436). -/
def liballuris_raw_value (in_buf : List Nat) (t : Transport) :
    Result (List Nat × Option Int) :=
  let out_buf : List Nat := [0x46, 3, 3]
  match liballuris_device_bulk_transfer out_buf in_buf 3 6 t with
  | .fatal => .fatal
  | .assertFail => .assertFail
  | .done r in2 =>
    if r = LIBALLURIS_SUCCESS then
      .ret r (in2, some (char_to_int24 (in2.getD 3 0) (in2.getD 4 0) (in2.getD 5 0)))
    else .ret r (in2, none)

/-- liballuris_raw_pos_peak (liballuris.c:446-455). -/
def liballuris_raw_pos_peak (in_buf : List Nat) (t : Transport) :
    Result (List Nat × Option Int) :=
  let out_buf : List Nat := [0x46, 3, 4]
  match liballuris_device_bulk_transfer out_buf in_buf 3 6 t with
  | .fatal => .fatal
  | .assertFail => .assertFail
  | .done r in2 =>
    if r = LIBALLURIS_SUCCESS then
      .ret r (in2, some (char_to_int24 (in2.getD 3 0) (in2.getD 4 0) (in2.getD 5 0)))
    else .ret r (in2, none)

/-- liballuris_raw_neg_peak (liballuris.c:465-474). -/
def liballuris_raw_neg_peak (in_buf : List Nat) (t : Transport) :
    Result (List Nat × Option Int) :=
  let out_buf : List Nat := [0x46, 3, 5]
  match liballuris_device_bulk_transfer out_buf in_buf 3 6 t with
  | .fatal => .fatal
  | .assertFail => .assertFail
  | .done r in2 =>
    if r = LIBALLURIS_SUCCESS then
      .ret r (in2, some (char_to_int24 (in2.getD 3 0) (in2.getD 4 0) (in2.getD 5 0)))
    else .ret r (in2, none)

/-- liballuris_read_state (liballuris.c:476-494).  The unpacking of the
24-bit value into the liballuris_state bit-field lives in the header, which
is not under src/; the output observable is the raw 24-bit state word
written to *state (or `none` on error). -/
def liballuris_read_state (in_buf : List Nat) (t : Transport) :
    Result (List Nat × Option Int) :=
  let out_buf : List Nat := [0x46, 3, 2]
  match liballuris_device_bulk_transfer out_buf in_buf 3 6 t with
  | .fatal => .fatal
  | .assertFail => .assertFail
  | .done r in2 =>
    if r = LIBALLURIS_SUCCESS then
      .ret r (in2, some (char_to_int24 (in2.getD 3 0) (in2.getD 4 0) (in2.getD 5 0)))
    else .ret r (in2, none)

/-- liballuris_cyclic_measurement (liballuris.c:520-536).  `length` is a C
size_t, so the `length < 0` half of the guard is vacuous; only `length > 19`
rejects.  Output observable: whether a device transaction was performed, and
the final in_buf. -/
def liballuris_cyclic_measurement (in_buf : List Nat) (t : Transport)
    (enable : Bool) (length : Nat) : Result (Bool × List Nat) :=
  if length > 19 then .ret LIBALLURIS_OUT_OF_RANGE (false, in_buf)
  else
    let out_buf : List Nat := [0x01, 4, if enable then 2 else 0, length]
    match liballuris_device_bulk_transfer out_buf in_buf 4 4 t with
    | .fatal => .fatal
    | .assertFail => .assertFail
    | .done r in2 => .ret r (true, in2)

/-- liballuris_poll_measurement (liballuris.c:545-555).  Requests a pure
receive of 5 + length*3 bytes (no send), then decodes all `length` samples
as 24-bit signed values from in_buf starting at offset 5, regardless of the
transaction's return code. -/
def liballuris_poll_measurement (in_buf : List Nat) (t : Transport)
    (length : Nat) : Result (List Int) :=
  let len := 5 + length * 3
  match liballuris_device_bulk_transfer [] in_buf 0 len t with
  | .fatal => .fatal
  | .assertFail => .assertFail
  | .done r in2 =>
    .ret r ((List.range length).map (fun k =>
      char_to_int24 (in2.getD (5 + k * 3) 0) (in2.getD (5 + k * 3 + 1) 0)
        (in2.getD (5 + k * 3 + 2) 0)))

/-- liballuris_tare (liballuris.c:561-567). -/
def liballuris_tare (in_buf : List Nat) (t : Transport) : Result (List Nat) :=
  let out_buf : List Nat := [0x15, 3, 0]
  match liballuris_device_bulk_transfer out_buf in_buf 3 3 t with
  | .fatal => .fatal
  | .assertFail => .assertFail
  | .done r in2 => .ret r in2

/-- liballuris_clear_pos_peak (liballuris.c:569-575). -/
def liballuris_clear_pos_peak (in_buf : List Nat) (t : Transport) :
    Result (List Nat) :=
  let out_buf : List Nat := [0x15, 3, 1]
  match liballuris_device_bulk_transfer out_buf in_buf 3 3 t with
  | .fatal => .fatal
  | .assertFail => .assertFail
  | .done r in2 => .ret r in2

/-- liballuris_clear_neg_peak (liballuris.c:577-583). -/
def liballuris_clear_neg_peak (in_buf : List Nat) (t : Transport) :
    Result (List Nat) :=
  let out_buf : List Nat := [0x15, 3, 2]
  match liballuris_device_bulk_transfer out_buf in_buf 3 3 t with
  | .fatal => .fatal
  | .assertFail => .assertFail
  | .done r in2 => .ret r in2

/-- liballuris_set_pos_limit (liballuris.c:652-661): payload is the
sub-selector 0 followed by the 3 low-order little-endian bytes of the limit. -/
def liballuris_set_pos_limit (in_buf : List Nat) (t : Transport)
    (limit : Int) : Result (List Nat) :=
  let b := int24_bytes limit
  let out_buf : List Nat := [0x18, 6, 0, b.1, b.2.1, b.2.2]
  match liballuris_device_bulk_transfer out_buf in_buf 6 6 t with
  | .fatal => .fatal
  | .assertFail => .assertFail
  | .done r in2 => .ret r in2

/-- liballuris_set_neg_limit (liballuris.c:663-672). -/
def liballuris_set_neg_limit (in_buf : List Nat) (t : Transport)
    (limit : Int) : Result (List Nat) :=
  let b := int24_bytes limit
  let out_buf : List Nat := [0x18, 6, 1, b.1, b.2.1, b.2.2]
  match liballuris_device_bulk_transfer out_buf in_buf 6 6 t with
  | .fatal => .fatal
  | .assertFail => .assertFail
  | .done r in2 => .ret r in2

/-- liballuris_get_pos_limit (liballuris.c:674-683). -/
def liballuris_get_pos_limit (in_buf : List Nat) (t : Transport) :
    Result (List Nat × Option Int) :=
  let out_buf : List Nat := [0x19, 6, 0]
  match liballuris_device_bulk_transfer out_buf in_buf 6 6 t with
  | .fatal => .fatal
  | .assertFail => .assertFail
  | .done r in2 =>
    if r = LIBALLURIS_SUCCESS then
      .ret r (in2, some (char_to_int24 (in2.getD 3 0) (in2.getD 4 0) (in2.getD 5 0)))
    else .ret r (in2, none)

/-- liballuris_get_neg_limit (liballuris.c:685-694). -/
def liballuris_get_neg_limit (in_buf : List Nat) (t : Transport) :
    Result (List Nat × Option Int) :=
  let out_buf : List Nat := [0x19, 6, 1]
  match liballuris_device_bulk_transfer out_buf in_buf 6 6 t with
  | .fatal => .fatal
  | .assertFail => .assertFail
  | .done r in2 =>
    if r = LIBALLURIS_SUCCESS then
      .ret r (in2, some (char_to_int24 (in2.getD 3 0) (in2.getD 4 0) (in2.getD 5 0)))
    else .ret r (in2, none)

/-- liballuris_set_mode (liballuris.c:696-712).  Out-of-range modes are
rejected before any transaction.  After the transaction the reply payload
byte in_buf[2] is compared against the requested mode REGARDLESS of the
transaction's return code; a mismatch yields device-busy.  Output
observable: whether a transaction was performed, and the final in_buf. -/
def liballuris_set_mode (in_buf : List Nat) (t : Transport) (mode : Int) :
    Result (Bool × List Nat) :=
  if mode < 0 ∨ mode > 3 then .ret LIBALLURIS_OUT_OF_RANGE (false, in_buf)
  else
    let out_buf : List Nat := [0x04, 3, mode.toNat]
    match liballuris_device_bulk_transfer out_buf in_buf 3 3 t with
    | .fatal => .fatal
    | .assertFail => .assertFail
    | .done r in2 =>
      if (in2.getD 2 0 : Int) ≠ mode then .ret LIBALLURIS_DEVICE_BUSY (true, in2)
      else .ret r (true, in2)

/-- liballuris_get_mode (liballuris.c:714-722). -/
def liballuris_get_mode (in_buf : List Nat) (t : Transport) :
    Result (List Nat × Option Nat) :=
  let out_buf : List Nat := [0x05, 2]
  match liballuris_device_bulk_transfer out_buf in_buf 2 3 t with
  | .fatal => .fatal
  | .assertFail => .assertFail
  | .done r in2 =>
    if r = LIBALLURIS_SUCCESS then .ret r (in2, some (in2.getD 2 0))
    else .ret r (in2, none)

/-- The do-while polling loop shared by liballuris_start_measurement
(liballuris.c:610-617) and liballuris_stop_measurement (liballuris.c:637-644).
`reads k` is the outcome of the (k+1)-th liballuris_read_state call: its
return code and the state.measuring flag it decoded (the flag is only
meaningful when the code is 0; on an error the C leaves `state`
uninitialized, but the loop condition short-circuits on the code first, so
the return value does not depend on it).  `want` is the measuring value the
loop waits for (true for start, false for stop).  The counter `timeout` is
decremented at the top of the body; the loop continues while the read code
is 0, the decremented counter is nonzero, and measuring differs from `want`.
Returns (last read code, final counter value, number of reads performed). -/
def poll_go (reads : Nat → Int × Bool) (want : Bool) (k : Nat) :
    Nat → Int × Nat × Nat
  | 0 => (0, 0, 0)
  | t + 1 =>
    let rm := reads k
    if rm.1 = 0 ∧ t ≠ 0 ∧ rm.2 ≠ want then
      let rest := poll_go reads want (k + 1) t
      (rest.1, rest.2.1, rest.2.2 + 1)
    else (rm.1, t, 1)

/-- liballuris_start_measurement (liballuris.c:595-623).  Sends the start
frame; if it returned 0, runs the 20-iteration polling loop waiting for
measuring, then overwrites the result with device-busy when the counter
reached 0 (`if (! timeout) ret = LIBALLURIS_DEVICE_BUSY`).  Output
observable: the number of state reads performed. -/
def liballuris_start_measurement (in_buf : List Nat) (t : Transport)
    (reads : Nat → Int × Bool) : Result Nat :=
  let out_buf : List Nat := [0x1C, 3, 1]
  match liballuris_device_bulk_transfer out_buf in_buf 3 3 t with
  | .fatal => .fatal
  | .assertFail => .assertFail
  | .done r _ =>
    if r = LIBALLURIS_SUCCESS then
      let p := poll_go reads true 0 20
      .ret (if p.2.1 = 0 then LIBALLURIS_DEVICE_BUSY else p.1) p.2.2
    else .ret r 0

/-- liballuris_stop_measurement (liballuris.c:625-650): symmetric to start,
with 10 iterations and waiting for measuring to clear. -/
def liballuris_stop_measurement (in_buf : List Nat) (t : Transport)
    (reads : Nat → Int × Bool) : Result Nat :=
  let out_buf : List Nat := [0x1C, 3, 0]
  match liballuris_device_bulk_transfer out_buf in_buf 3 3 t with
  | .fatal => .fatal
  | .assertFail => .assertFail
  | .done r _ =>
    if r = LIBUSB_SUCCESS then
      let p := poll_go reads false 0 10
      .ret (if p.2.1 = 0 then LIBALLURIS_DEVICE_BUSY else p.1) p.2.2
    else .ret r 0

/-! ## Helper lemmas -/

theorem poll_go_succ (reads : Nat → Int × Bool) (want : Bool) (k t : Nat) :
    poll_go reads want k (t + 1) =
      if (reads k).1 = 0 ∧ t ≠ 0 ∧ (reads k).2 ≠ want then
        ((poll_go reads want (k + 1) t).1, (poll_go reads want (k + 1) t).2.1,
          (poll_go reads want (k + 1) t).2.2 + 1)
      else ((reads k).1, t, 1) := rfl

theorem poll_go_count_le (reads : Nat → Int × Bool) (want : Bool) (k f : Nat) :
    (poll_go reads want k f).2.2 ≤ f := by
  induction f generalizing k with
  | zero => simp [poll_go]
  | succ t ih =>
    rw [poll_go_succ]
    split
    · have := ih (k + 1)
      simp only
      omega
    · simp

theorem poll_go_found (reads : Nat → Int × Bool) (want : Bool) (k f j : Nat)
    (hj : j + 1 ≤ f)
    (hbefore : ∀ i, i < j → reads (k + i) = (0, !want))
    (hat1 : (reads (k + j)).1 = 0) (hat2 : (reads (k + j)).2 = want) :
    poll_go reads want k f = (0, f - (j + 1), j + 1) := by
  induction j generalizing k f with
  | zero =>
    obtain ⟨t, rfl⟩ : ∃ t, f = t + 1 := ⟨f - 1, by omega⟩
    simp only [Nat.add_zero] at hat1 hat2
    rw [poll_go_succ, if_neg (by simp [hat1, hat2]), hat1]
    simp
  | succ j ih =>
    obtain ⟨t, rfl⟩ : ∃ t, f = t + 1 := ⟨f - 1, by omega⟩
    have h0 : reads k = (0, !want) := by simpa using hbefore 0 (by omega)
    rw [poll_go_succ,
      if_pos ⟨by simp [h0], by omega, by cases want <;> simp [h0]⟩]
    have hrec : poll_go reads want (k + 1) t = (0, t - (j + 1), j + 1) := by
      refine ih (k + 1) t (by omega) ?_ ?_ ?_
      · intro i hi
        have h := hbefore (i + 1) (by omega)
        rwa [show k + (i + 1) = k + 1 + i by omega] at h
      · rwa [show k + 1 + j = k + (j + 1) by omega]
      · rwa [show k + 1 + j = k + (j + 1) by omega]
    rw [hrec]
    have h2 : t - (j + 1) = t + 1 - (j + 1 + 1) := by omega
    rw [h2]

theorem poll_go_err (reads : Nat → Int × Bool) (want : Bool) (k f j : Nat)
    (hj : j + 1 ≤ f)
    (hbefore : ∀ i, i < j → reads (k + i) = (0, !want))
    (hat : (reads (k + j)).1 ≠ 0) :
    poll_go reads want k f = ((reads (k + j)).1, f - (j + 1), j + 1) := by
  induction j generalizing k f with
  | zero =>
    obtain ⟨t, rfl⟩ : ∃ t, f = t + 1 := ⟨f - 1, by omega⟩
    simp only [Nat.add_zero] at hat ⊢
    rw [poll_go_succ, if_neg (by simp [hat])]
    simp
  | succ j ih =>
    obtain ⟨t, rfl⟩ : ∃ t, f = t + 1 := ⟨f - 1, by omega⟩
    have h0 : reads k = (0, !want) := by simpa using hbefore 0 (by omega)
    rw [poll_go_succ,
      if_pos ⟨by simp [h0], by omega, by cases want <;> simp [h0]⟩]
    have hrec : poll_go reads want (k + 1) t =
        ((reads (k + 1 + j)).1, t - (j + 1), j + 1) := by
      refine ih (k + 1) t (by omega) ?_ ?_
      · intro i hi
        have h := hbefore (i + 1) (by omega)
        rwa [show k + (i + 1) = k + 1 + i by omega] at h
      · rwa [show k + 1 + j = k + (j + 1) by omega]
    rw [hrec]
    have h2 : t - (j + 1) = t + 1 - (j + 1 + 1) := by omega
    rw [h2, show k + 1 + j = k + (j + 1) by omega]

theorem poll_go_exhaust (reads : Nat → Int × Bool) (want : Bool) (k f : Nat)
    (hf : 1 ≤ f)
    (hall : ∀ i, i < f → reads (k + i) = (0, !want)) :
    poll_go reads want k f = (0, 0, f) := by
  induction f generalizing k with
  | zero => omega
  | succ t ih =>
    have h0 : reads k = (0, !want) := by simpa using hall 0 (by omega)
    rcases Nat.eq_zero_or_pos t with rfl | ht
    · rw [poll_go_succ, if_neg (by simp)]
      simp [h0]
    · rw [poll_go_succ,
        if_pos ⟨by simp [h0], by omega, by cases want <;> simp [h0]⟩]
      have hrec : poll_go reads want (k + 1) t = (0, 0, t) := by
        refine ih (k + 1) ht ?_
        intro i hi
        have h := hall (i + 1) (by omega)
        rwa [show k + (i + 1) = k + 1 + i by omega] at h
      rw [hrec]

theorem bulk_done_of_ok (out_buf in_buf : List Nat) (s rl : Nat) (t : Transport)
    (hsc : s ≤ DEFAULT_SEND_BUF_LEN) (hrc : rl ≤ DEFAULT_RECV_BUF_LEN)
    (hob : 0 < s → out_buf.getD 1 0 = s) :
    ∃ r in2, liballuris_device_bulk_transfer out_buf in_buf s rl t = .done r in2 := by
  unfold liballuris_device_bulk_transfer
  rw [if_neg (by omega), if_neg (by omega),
    if_neg (by rintro ⟨h1, h2⟩; exact h2 (hob h1))]
  split
  · exact ⟨_, _, rfl⟩
  · split
    · dsimp only
      split
      · exact ⟨_, _, rfl⟩
      · split
        · exact ⟨_, _, rfl⟩
        · exact ⟨_, _, rfl⟩
    · exact ⟨_, _, rfl⟩

/-! ## Claim theorems -/

/-- C1 (code_bug evaluation): a short write in which the transport itself
reported LIBUSB_SUCCESS — 2 of the requested 3 bytes transferred — makes
liballuris_device_bulk_transfer return 0 (success) without attempting the
receive phase (in_buf untouched), although the C code prints "Write error"
on this path.  This contradicts the claim that a short write surfaces a
write error and that a return value of 0 implies the send phase transferred
exactly sendLen bytes. -/
theorem c1_short_write_returns_success :
    liballuris_device_bulk_transfer [0x08, 3, 6] [1, 2, 3, 4, 5, 6] 3 6
        ⟨LIBUSB_SUCCESS, 2, LIBUSB_SUCCESS, 0, []⟩ =
      .done LIBUSB_SUCCESS [1, 2, 3, 4, 5, 6] ∧ LIBUSB_SUCCESS = 0 := by
  decide

/-- C2: whenever a send occurred (and completed), the receive reported no
transport error (read code 0), and either the command echo in the first
reply byte or the declared-length byte against the actual received count
mismatches, the transaction returns the malformed-reply code, which is
distinct from the transport success code. -/
theorem c2_malformed_reply_precedence (out_buf in_buf : List Nat) (s rl : Nat)
    (t : Transport)
    (hs : 0 < s) (hrl : 0 < rl)
    (hsc : s ≤ DEFAULT_SEND_BUF_LEN) (hrc : rl ≤ DEFAULT_RECV_BUF_LEN)
    (hob : out_buf.getD 1 0 = s)
    (hw : t.writeR = LIBUSB_SUCCESS) (hwa : t.writeActual = s)
    (hr : t.readR = LIBUSB_SUCCESS)
    (hmis : (writeBytes in_buf (t.readData.map (· % 256)) t.readActual).getD 0 0
          ≠ out_buf.getD 0 0
        ∨ (writeBytes in_buf (t.readData.map (· % 256)) t.readActual).getD 1 0
          ≠ t.readActual) :
    liballuris_device_bulk_transfer out_buf in_buf s rl t =
      .done LIBALLURIS_MALFORMED_REPLY
        (writeBytes in_buf (t.readData.map (· % 256)) t.readActual) ∧
    LIBALLURIS_MALFORMED_REPLY ≠ LIBUSB_SUCCESS := by
  refine ⟨?_, by decide⟩
  unfold liballuris_device_bulk_transfer
  rw [if_neg (by omega), if_neg (by omega),
    if_neg (by rintro ⟨h1, h2⟩; exact h2 hob),
    if_neg (by
      rintro ⟨h1, h2⟩
      rcases h2 with h | h
      · exact h hw
      · exact h hwa),
    if_pos hrl]
  dsimp only
  rw [if_neg (by
      rintro ⟨h1, h2⟩
      rw [hr] at h2
      exact absurd h2 (by decide)),
    if_pos ⟨by rw [hr]; decide, hs, hmis⟩]

/-- C3: for every v in [-8388608, 8388607], encoding v as its 3 low-order
little-endian bytes (as liballuris_set_pos_limit does) and decoding with
char_to_int24 yields v again; and char_to_int24 sign-extends by subtracting
2^24 exactly when the unsigned 24-bit value exceeds 2^23-1. -/
theorem c3_int24_codec_roundtrip :
    (∀ v : Int, -8388608 ≤ v → v ≤ 8388607 →
      char_to_int24 (int24_bytes v).1 (int24_bytes v).2.1 (int24_bytes v).2.2 = v) ∧
    (∀ b0 b1 b2 : Nat, char_to_uint24 b0 b1 b2 > 8388607 →
      char_to_int24 b0 b1 b2 = char_to_uint24 b0 b1 b2 - 16777216) := by
  constructor
  · intro v h1 h2
    simp only [char_to_int24, char_to_uint24, int24_bytes]
    have h3 : (0:Int) ≤ v % 16777216 := Int.emod_nonneg v (by norm_num)
    have h4 : v % 16777216 < 16777216 := Int.emod_lt_of_pos v (by norm_num)
    have h5 : ((v % 16777216).toNat : Int) = v % 16777216 := Int.toNat_of_nonneg h3
    set u := (v % 16777216).toNat with hu
    have hub : u < 16777216 := by omega
    have hrec : u % 256 % 256 + 256 * (u / 256 % 256 % 256)
        + 65536 * (u / 65536 % 256) = u := by omega
    rw [hrec]
    split <;> omega
  · intro b0 b1 b2 h
    simp only [char_to_int24]
    rw [if_pos h]

/-- C3 witness: the roundtrip at the concrete value -5. -/
theorem c3_int24_codec_roundtrip_witness :
    char_to_int24 (int24_bytes (-5)).1 (int24_bytes (-5)).2.1
      (int24_bytes (-5)).2.2 = -5 :=
  c3_int24_codec_roundtrip.1 (-5) (by decide) (by decide)

/-- C2 witness: command byte 0x08 sent, reply echoes 0x07 with a clean
transport: the transaction returns the malformed-reply code. -/
theorem c2_malformed_reply_precedence_witness :
    liballuris_device_bulk_transfer [0x08, 3, 6] [9, 9, 9, 9, 9, 9] 3 6
        ⟨0, 3, 0, 6, [7, 6, 0, 0, 0, 0]⟩ =
      .done LIBALLURIS_MALFORMED_REPLY
        (writeBytes [9, 9, 9, 9, 9, 9] ([7, 6, 0, 0, 0, 0].map (· % 256)) 6) ∧
    LIBALLURIS_MALFORMED_REPLY ≠ LIBUSB_SUCCESS :=
  c2_malformed_reply_precedence [0x08, 3, 6] [9, 9, 9, 9, 9, 9] 3 6
    ⟨0, 3, 0, 6, [7, 6, 0, 0, 0, 0]⟩ (by decide) (by decide) (by decide)
    (by decide) (by decide) (by decide) (by decide) (by decide) (by decide)

theorem start_poll_eq (in_buf : List Nat) (t : Transport)
    (reads : Nat → Int × Bool) (ib : List Nat)
    (h : liballuris_device_bulk_transfer [0x1C, 3, 1] in_buf 3 3 t =
      .done LIBALLURIS_SUCCESS ib) :
    liballuris_start_measurement in_buf t reads =
      .ret (if (poll_go reads true 0 20).2.1 = 0 then LIBALLURIS_DEVICE_BUSY
        else (poll_go reads true 0 20).1) (poll_go reads true 0 20).2.2 := by
  unfold liballuris_start_measurement
  dsimp only
  rw [h]
  dsimp only
  rw [if_pos rfl]

theorem stop_poll_eq (in_buf : List Nat) (t : Transport)
    (reads : Nat → Int × Bool) (ib : List Nat)
    (h : liballuris_device_bulk_transfer [0x1C, 3, 0] in_buf 3 3 t =
      .done LIBUSB_SUCCESS ib) :
    liballuris_stop_measurement in_buf t reads =
      .ret (if (poll_go reads false 0 10).2.1 = 0 then LIBALLURIS_DEVICE_BUSY
        else (poll_go reads false 0 10).1) (poll_go reads false 0 10).2.2 := by
  unfold liballuris_stop_measurement
  dsimp only
  rw [h]
  dsimp only
  rw [if_pos rfl]

/-- C4 counterexample: the start frame is accepted, the state reads report
not-measuring 19 times and Measuring on the 20th (final) read, with no read
errors — yet liballuris_start_measurement returns device-busy, not 0,
because the exhausted counter overwrites the result.  This refutes the
claim that the function returns 0 the first time the device reports
Measuring within the 20 polls. -/
theorem c4_final_iteration_counterexample :
    liballuris_start_measurement [0, 0, 0] ⟨0, 3, 0, 3, [0x1C, 3, 1]⟩
        (fun k => (0, decide (19 ≤ k))) =
      .ret LIBALLURIS_DEVICE_BUSY 20 ∧
    LIBALLURIS_DEVICE_BUSY ≠ LIBALLURIS_SUCCESS ∧
    (fun k => ((0 : Int), decide (19 ≤ k))) 19 = (0, true) := by
  decide

/-- C4 (amended): after an accepted start command,
liballuris_start_measurement polls the device state at most 20 times; it
returns 0 when the device first reports Measuring on any of the first 19
reads, device-busy when all 20 reads report not-Measuring, and a state-read
error on any of the first 19 reads aborts the loop immediately and is
propagated; however, on the 20th (final) read both a first Measuring report
and a read error are overwritten with device-busy.
liballuris_stop_measurement is symmetric with 10 iterations, waiting for
not-Measuring, with the same final-iteration overwrite on the 10th read. -/
theorem c4_poll_loops_amended :
    (∀ (in_buf : List Nat) (t : Transport) (reads : Nat → Int × Bool)
        (ib : List Nat),
      liballuris_device_bulk_transfer [0x1C, 3, 1] in_buf 3 3 t =
        .done LIBALLURIS_SUCCESS ib →
      (∃ r c, liballuris_start_measurement in_buf t reads = .ret r c ∧ c ≤ 20) ∧
      (∀ j, j + 1 < 20 → (∀ i, i < j → reads i = (0, false)) →
        (reads j).1 = 0 → (reads j).2 = true →
        liballuris_start_measurement in_buf t reads =
          .ret LIBALLURIS_SUCCESS (j + 1)) ∧
      ((∀ i, i < 20 → reads i = (0, false)) →
        liballuris_start_measurement in_buf t reads =
          .ret LIBALLURIS_DEVICE_BUSY 20) ∧
      (∀ j, j + 1 < 20 → (∀ i, i < j → reads i = (0, false)) →
        (reads j).1 ≠ 0 →
        liballuris_start_measurement in_buf t reads = .ret (reads j).1 (j + 1)) ∧
      ((∀ i, i < 19 → reads i = (0, false)) →
        ((reads 19).1 ≠ 0 ∨ (reads 19).2 = true) →
        liballuris_start_measurement in_buf t reads =
          .ret LIBALLURIS_DEVICE_BUSY 20)) ∧
    (∀ (in_buf : List Nat) (t : Transport) (reads : Nat → Int × Bool)
        (ib : List Nat),
      liballuris_device_bulk_transfer [0x1C, 3, 0] in_buf 3 3 t =
        .done LIBUSB_SUCCESS ib →
      (∃ r c, liballuris_stop_measurement in_buf t reads = .ret r c ∧ c ≤ 10) ∧
      (∀ j, j + 1 < 10 → (∀ i, i < j → reads i = (0, true)) →
        (reads j).1 = 0 → (reads j).2 = false →
        liballuris_stop_measurement in_buf t reads =
          .ret LIBALLURIS_SUCCESS (j + 1)) ∧
      ((∀ i, i < 10 → reads i = (0, true)) →
        liballuris_stop_measurement in_buf t reads =
          .ret LIBALLURIS_DEVICE_BUSY 10) ∧
      (∀ j, j + 1 < 10 → (∀ i, i < j → reads i = (0, true)) →
        (reads j).1 ≠ 0 →
        liballuris_stop_measurement in_buf t reads = .ret (reads j).1 (j + 1)) ∧
      ((∀ i, i < 9 → reads i = (0, true)) →
        ((reads 9).1 ≠ 0 ∨ (reads 9).2 = false) →
        liballuris_stop_measurement in_buf t reads =
          .ret LIBALLURIS_DEVICE_BUSY 10)) := by
  constructor
  · intro in_buf t reads ib h
    refine ⟨?_, ?_, ?_, ?_, ?_⟩
    · rw [start_poll_eq in_buf t reads ib h]
      exact ⟨_, _, rfl, poll_go_count_le reads true 0 20⟩
    · intro j hj hb hj1 hj2
      rw [start_poll_eq in_buf t reads ib h,
        poll_go_found reads true 0 20 j (by omega)
          (fun i hi => by rw [Nat.zero_add]; exact hb i hi)
          (by rw [Nat.zero_add]; exact hj1) (by rw [Nat.zero_add]; exact hj2)]
      dsimp only
      rw [if_neg (by omega)]
      rfl
    · intro hall
      rw [start_poll_eq in_buf t reads ib h,
        poll_go_exhaust reads true 0 20 (by omega)
          (fun i hi => by rw [Nat.zero_add]; exact hall i hi)]
      rfl
    · intro j hj hb hj1
      rw [start_poll_eq in_buf t reads ib h,
        poll_go_err reads true 0 20 j (by omega)
          (fun i hi => by rw [Nat.zero_add]; exact hb i hi)
          (by rw [Nat.zero_add]; exact hj1)]
      dsimp only
      rw [if_neg (by omega), Nat.zero_add]
    · intro hall hlast
      rw [start_poll_eq in_buf t reads ib h]
      rcases Decidable.em ((reads 19).1 = 0) with h19 | h19
      · have h19b : (reads 19).2 = true := by
          rcases hlast with h' | h'
          · exact absurd h19 h'
          · exact h'
        rw [poll_go_found reads true 0 20 19 (by omega)
          (fun i hi => by rw [Nat.zero_add]; exact hall i hi)
          (by rw [Nat.zero_add]; exact h19) (by rw [Nat.zero_add]; exact h19b)]
        rfl
      · rw [poll_go_err reads true 0 20 19 (by omega)
          (fun i hi => by rw [Nat.zero_add]; exact hall i hi)
          (by rw [Nat.zero_add]; exact h19)]
        rfl
  · intro in_buf t reads ib h
    refine ⟨?_, ?_, ?_, ?_, ?_⟩
    · rw [stop_poll_eq in_buf t reads ib h]
      exact ⟨_, _, rfl, poll_go_count_le reads false 0 10⟩
    · intro j hj hb hj1 hj2
      rw [stop_poll_eq in_buf t reads ib h,
        poll_go_found reads false 0 10 j (by omega)
          (fun i hi => by rw [Nat.zero_add]; exact hb i hi)
          (by rw [Nat.zero_add]; exact hj1) (by rw [Nat.zero_add]; exact hj2)]
      dsimp only
      rw [if_neg (by omega)]
      rfl
    · intro hall
      rw [stop_poll_eq in_buf t reads ib h,
        poll_go_exhaust reads false 0 10 (by omega)
          (fun i hi => by rw [Nat.zero_add]; exact hall i hi)]
      rfl
    · intro j hj hb hj1
      rw [stop_poll_eq in_buf t reads ib h,
        poll_go_err reads false 0 10 j (by omega)
          (fun i hi => by rw [Nat.zero_add]; exact hb i hi)
          (by rw [Nat.zero_add]; exact hj1)]
      dsimp only
      rw [if_neg (by omega), Nat.zero_add]
    · intro hall hlast
      rw [stop_poll_eq in_buf t reads ib h]
      rcases Decidable.em ((reads 9).1 = 0) with h9 | h9
      · have h9b : (reads 9).2 = false := by
          rcases hlast with h' | h'
          · exact absurd h9 h'
          · exact h'
        rw [poll_go_found reads false 0 10 9 (by omega)
          (fun i hi => by rw [Nat.zero_add]; exact hall i hi)
          (by rw [Nat.zero_add]; exact h9) (by rw [Nat.zero_add]; exact h9b)]
        rfl
      · rw [poll_go_err reads false 0 10 9 (by omega)
          (fun i hi => by rw [Nat.zero_add]; exact hall i hi)
          (by rw [Nat.zero_add]; exact h9)]
        rfl

/-- C4 witness: a start whose 20 state reads all report not-measuring
returns device-busy after 20 reads, and a stop whose first state read
reports not-measuring returns 0 after one read. -/
theorem c4_poll_loops_amended_witness :
    liballuris_start_measurement [0, 0, 0] ⟨0, 3, 0, 3, [0x1C, 3, 1]⟩
        (fun _ => (0, false)) = .ret LIBALLURIS_DEVICE_BUSY 20 ∧
    liballuris_stop_measurement [0, 0, 0] ⟨0, 3, 0, 3, [0x1C, 3, 0]⟩
        (fun _ => (0, false)) = .ret LIBALLURIS_SUCCESS 1 :=
  ⟨(c4_poll_loops_amended.1 [0, 0, 0] ⟨0, 3, 0, 3, [0x1C, 3, 1]⟩
      (fun _ => (0, false)) [0x1C, 3, 1] (by decide)).2.2.1
      (fun i hi => rfl),
   (c4_poll_loops_amended.2 [0, 0, 0] ⟨0, 3, 0, 3, [0x1C, 3, 0]⟩
      (fun _ => (0, false)) [0x1C, 3, 0] (by decide)).2.1 0 (by omega)
      (fun i hi => absurd hi (Nat.not_lt_zero i)) rfl rfl⟩

/-- C5: when the serial-number query's transaction returns transport success
and the 16-bit field decoded at reply offset 3 is the sentinel -1, the
function returns device-busy (≠ success) instead of 0; likewise the digits
query with its 24-bit field at reply offset 3. -/
theorem c5_busy_sentinel :
    (∀ (in_buf : List Nat) (t : Transport) (in2 : List Nat),
      liballuris_device_bulk_transfer [0x08, 3, 6] in_buf 3 6 t =
        .done LIBALLURIS_SUCCESS in2 →
      char_to_uint16 (in2.getD 3 0) (in2.getD 4 0) = -1 →
      ∃ out, liballuris_serial_number in_buf t =
        .ret LIBALLURIS_DEVICE_BUSY out) ∧
    (∀ (in_buf : List Nat) (t : Transport) (in2 : List Nat),
      liballuris_device_bulk_transfer [0x08, 3, 3] in_buf 3 6 t =
        .done LIBALLURIS_SUCCESS in2 →
      char_to_int24 (in2.getD 3 0) (in2.getD 4 0) (in2.getD 5 0) = -1 →
      ∃ out, liballuris_digits in_buf t = .ret LIBALLURIS_DEVICE_BUSY out) ∧
    LIBALLURIS_DEVICE_BUSY ≠ LIBALLURIS_SUCCESS := by
  refine ⟨?_, ?_, by decide⟩
  · intro in_buf t in2 h hsent
    unfold liballuris_serial_number
    dsimp only
    rw [h]
    dsimp only
    rw [if_pos rfl, if_pos hsent]
    exact ⟨_, rfl⟩
  · intro in_buf t in2 h hsent
    unfold liballuris_digits
    dsimp only
    rw [h]
    dsimp only
    rw [if_pos rfl, if_pos hsent]
    exact ⟨_, rfl⟩

/-- C5 witness: serial-number reply with 16-bit field 0xFFFF at offset 3 is
remapped to device-busy. -/
theorem c5_busy_sentinel_witness :
    ∃ out, liballuris_serial_number [9, 9, 9, 9, 9, 9]
        ⟨0, 3, 0, 6, [8, 6, 0, 255, 255, 7]⟩ =
      .ret LIBALLURIS_DEVICE_BUSY out :=
  c5_busy_sentinel.1 [9, 9, 9, 9, 9, 9] ⟨0, 3, 0, 6, [8, 6, 0, 255, 255, 7]⟩
    [8, 6, 0, 255, 255, 7] (by decide) (by decide)

/-- C6: liballuris_set_mode rejects any mode outside 0..3 locally with
out-of-range and performs no transaction (transacted-flag false, in_buf
untouched); liballuris_cyclic_measurement rejects any length above 19 the
same way, while length 19 always proceeds to a transaction. -/
theorem c6_out_of_range_local :
    (∀ (in_buf : List Nat) (t : Transport) (mode : Int),
      (mode < 0 ∨ mode > 3) →
      liballuris_set_mode in_buf t mode =
        .ret LIBALLURIS_OUT_OF_RANGE (false, in_buf)) ∧
    (∀ (in_buf : List Nat) (t : Transport) (enable : Bool) (n : Nat),
      n > 19 →
      liballuris_cyclic_measurement in_buf t enable n =
        .ret LIBALLURIS_OUT_OF_RANGE (false, in_buf)) ∧
    (∀ (in_buf : List Nat) (t : Transport) (enable : Bool),
      ∃ r in2, liballuris_cyclic_measurement in_buf t enable 19 =
        .ret r (true, in2)) ∧
    LIBALLURIS_OUT_OF_RANGE ≠ LIBALLURIS_SUCCESS := by
  refine ⟨?_, ?_, ?_, by decide⟩
  · intro in_buf t mode h
    unfold liballuris_set_mode
    rw [if_pos h]
  · intro in_buf t enable n h
    unfold liballuris_cyclic_measurement
    rw [if_pos h]
  · intro in_buf t enable
    obtain ⟨r, in2, h⟩ := bulk_done_of_ok [0x01, 4, if enable then 2 else 0, 19]
      in_buf 4 4 t (by decide) (by decide) (fun _ => rfl)
    refine ⟨r, in2, ?_⟩
    unfold liballuris_cyclic_measurement
    rw [if_neg (by omega)]
    dsimp only
    rw [h]

/-- C6 witness: mode 4 and cyclic length 20 are rejected locally; cyclic
length 19 performs a transaction. -/
theorem c6_out_of_range_local_witness :
    liballuris_set_mode [9, 9, 9] ⟨0, 3, 0, 3, [4, 3, 1]⟩ 4 =
      .ret LIBALLURIS_OUT_OF_RANGE (false, [9, 9, 9]) ∧
    liballuris_cyclic_measurement [9, 9, 9, 9] ⟨0, 4, 0, 4, [1, 4, 2, 19]⟩
        true 20 = .ret LIBALLURIS_OUT_OF_RANGE (false, [9, 9, 9, 9]) ∧
    ∃ r in2, liballuris_cyclic_measurement [9, 9, 9, 9]
        ⟨0, 4, 0, 4, [1, 4, 2, 19]⟩ true 19 = .ret r (true, in2) :=
  ⟨c6_out_of_range_local.1 [9, 9, 9] ⟨0, 3, 0, 3, [4, 3, 1]⟩ 4 (by decide),
   c6_out_of_range_local.2.1 [9, 9, 9, 9] ⟨0, 4, 0, 4, [1, 4, 2, 19]⟩ true 20
     (by decide),
   c6_out_of_range_local.2.2.1 [9, 9, 9, 9] ⟨0, 4, 0, 4, [1, 4, 2, 19]⟩ true⟩

/-- C7: for every in-range mode (0..3), whenever liballuris_set_mode returns
normally and the reply payload byte at offset 2 of the final in_buf differs
from the requested mode, the returned code is device-busy. -/
theorem c7_mode_echo_check (in_buf : List Nat) (t : Transport) (mode : Int)
    (h0 : 0 ≤ mode) (h3 : mode ≤ 3) (r : Int) (tr : Bool) (in2 : List Nat)
    (h : liballuris_set_mode in_buf t mode = .ret r (tr, in2))
    (hne : (in2.getD 2 0 : Int) ≠ mode) :
    r = LIBALLURIS_DEVICE_BUSY := by
  unfold liballuris_set_mode at h
  rw [if_neg (by omega)] at h
  dsimp only at h
  rcases hb : liballuris_device_bulk_transfer [0x04, 3, mode.toNat] in_buf 3 3 t
    with _ | _ | ⟨r', in2'⟩
  all_goals rw [hb] at h
  · cases h
  · cases h
  · dsimp only at h
    split at h
    · cases h
      rfl
    case isFalse hcond =>
      cases h
      exact absurd (not_not.mp hcond) hne

/-- C7 witness: requesting mode 1 while the reply echoes 2 yields
device-busy. -/
theorem c7_mode_echo_check_witness :
    liballuris_set_mode [9, 9, 9] ⟨0, 3, 0, 3, [4, 3, 2]⟩ 1 =
      .ret LIBALLURIS_DEVICE_BUSY (true, [4, 3, 2]) ∧
    ((2 : Int) = LIBALLURIS_DEVICE_BUSY) :=
  ⟨by decide,
   c7_mode_echo_check [9, 9, 9] ⟨0, 3, 0, 3, [4, 3, 2]⟩ 1 (by decide)
     (by decide) 2 true [4, 3, 2] (by decide) (by decide)⟩

/-- C8: liballuris_poll_measurement requests a receive length of exactly
5 + 3*n bytes and, whatever code the transaction returned (error included),
decodes all n samples as 24-bit signed values from in_buf at offsets
5, 8, 11, ... into the caller's array. -/
theorem c8_poll_decode (in_buf : List Nat) (t : Transport) (n : Nat)
    (r : Int) (in2 : List Nat)
    (h : liballuris_device_bulk_transfer [] in_buf 0 (5 + n * 3) t =
      .done r in2) :
    liballuris_poll_measurement in_buf t n =
      .ret r ((List.range n).map fun k =>
        char_to_int24 (in2.getD (5 + k * 3) 0) (in2.getD (5 + k * 3 + 1) 0)
          (in2.getD (5 + k * 3 + 2) 0)) ∧
    ((List.range n).map fun k =>
        char_to_int24 (in2.getD (5 + k * 3) 0) (in2.getD (5 + k * 3 + 1) 0)
          (in2.getD (5 + k * 3 + 2) 0)).length = n := by
  constructor
  · unfold liballuris_poll_measurement
    dsimp only
    rw [h]
  · simp

/-- C8 witness: a poll of 2 samples whose transaction failed with a
transport timeout code still decodes both samples. -/
theorem c8_poll_decode_witness :
    liballuris_poll_measurement [0, 0, 0, 0, 0, 251, 255, 255, 5, 0, 0]
        ⟨0, 0, -7, 11, [0, 11, 0, 0, 0, 251, 255, 255, 5, 0, 0]⟩ 2 =
      .ret (-7) ((List.range 2).map fun k =>
        char_to_int24
          ([0, 11, 0, 0, 0, 251, 255, 255, 5, 0, 0].getD (5 + k * 3) 0)
          ([0, 11, 0, 0, 0, 251, 255, 255, 5, 0, 0].getD (5 + k * 3 + 1) 0)
          ([0, 11, 0, 0, 0, 251, 255, 255, 5, 0, 0].getD (5 + k * 3 + 2) 0)) ∧
    ((List.range 2).map fun k =>
        char_to_int24
          ([0, 11, 0, 0, 0, 251, 255, 255, 5, 0, 0].getD (5 + k * 3) 0)
          ([0, 11, 0, 0, 0, 251, 255, 255, 5, 0, 0].getD (5 + k * 3 + 1) 0)
          ([0, 11, 0, 0, 0, 251, 255, 255, 5, 0, 0].getD (5 + k * 3 + 2) 0)).length
      = 2 :=
  c8_poll_decode [0, 0, 0, 0, 0, 251, 255, 255, 5, 0, 0]
    ⟨0, 0, -7, 11, [0, 11, 0, 0, 0, 251, 255, 255, 5, 0, 0]⟩ 2 (-7)
    [0, 11, 0, 0, 0, 251, 255, 255, 5, 0, 0] (by decide)

theorem bulk_no_assert (out_buf in_buf : List Nat) (s rl : Nat) (t : Transport)
    (hob : 0 < s → out_buf.getD 1 0 = s) :
    liballuris_device_bulk_transfer out_buf in_buf s rl t ≠ .assertFail := by
  unfold liballuris_device_bulk_transfer
  split
  · exact fun hc => XferResult.noConfusion hc
  split
  · exact fun hc => XferResult.noConfusion hc
  rw [if_neg (fun hc => hc.2 (hob hc.1))]
  split
  · exact fun hc => XferResult.noConfusion hc
  split
  · dsimp only
    split
    · exact fun hc => XferResult.noConfusion hc
    split
    · exact fun hc => XferResult.noConfusion hc
    · exact fun hc => XferResult.noConfusion hc
  · exact fun hc => XferResult.noConfusion hc

/-- C9: no command function of the library can hit the transaction
primitive's assert(out_buf[1] == send_len): every call site with a positive
send length sets the outgoing frame's declared-length byte out_buf[1] to
its send length before the call, so no modelled command ever yields the
assert-failure outcome. -/
theorem c9_out_buf_length_invariant :
    (∀ (ib : List Nat) (t : Transport),
      liballuris_serial_number ib t ≠ .assertFail) ∧
    (∀ (ib : List Nat) (t : Transport), liballuris_digits ib t ≠ .assertFail) ∧
    (∀ (ib : List Nat) (t : Transport),
      liballuris_raw_value ib t ≠ .assertFail) ∧
    (∀ (ib : List Nat) (t : Transport),
      liballuris_raw_pos_peak ib t ≠ .assertFail) ∧
    (∀ (ib : List Nat) (t : Transport),
      liballuris_raw_neg_peak ib t ≠ .assertFail) ∧
    (∀ (ib : List Nat) (t : Transport),
      liballuris_read_state ib t ≠ .assertFail) ∧
    (∀ (ib : List Nat) (t : Transport) (enable : Bool) (n : Nat),
      liballuris_cyclic_measurement ib t enable n ≠ .assertFail) ∧
    (∀ (ib : List Nat) (t : Transport) (n : Nat),
      liballuris_poll_measurement ib t n ≠ .assertFail) ∧
    (∀ (ib : List Nat) (t : Transport), liballuris_tare ib t ≠ .assertFail) ∧
    (∀ (ib : List Nat) (t : Transport),
      liballuris_clear_pos_peak ib t ≠ .assertFail) ∧
    (∀ (ib : List Nat) (t : Transport),
      liballuris_clear_neg_peak ib t ≠ .assertFail) ∧
    (∀ (ib : List Nat) (t : Transport) (v : Int),
      liballuris_set_pos_limit ib t v ≠ .assertFail) ∧
    (∀ (ib : List Nat) (t : Transport) (v : Int),
      liballuris_set_neg_limit ib t v ≠ .assertFail) ∧
    (∀ (ib : List Nat) (t : Transport),
      liballuris_get_pos_limit ib t ≠ .assertFail) ∧
    (∀ (ib : List Nat) (t : Transport),
      liballuris_get_neg_limit ib t ≠ .assertFail) ∧
    (∀ (ib : List Nat) (t : Transport) (mode : Int),
      liballuris_set_mode ib t mode ≠ .assertFail) ∧
    (∀ (ib : List Nat) (t : Transport), liballuris_get_mode ib t ≠ .assertFail) ∧
    (∀ (ib : List Nat) (t : Transport) (reads : Nat → Int × Bool),
      liballuris_start_measurement ib t reads ≠ .assertFail) ∧
    (∀ (ib : List Nat) (t : Transport) (reads : Nat → Int × Bool),
      liballuris_stop_measurement ib t reads ≠ .assertFail) := by
  refine ⟨?_, ?_, ?_, ?_, ?_, ?_, ?_, ?_, ?_, ?_, ?_, ?_, ?_, ?_, ?_, ?_, ?_,
    ?_, ?_⟩
  · intro ib t
    unfold liballuris_serial_number
    dsimp only
    rcases hb : liballuris_device_bulk_transfer [0x08, 3, 6] ib 3 6 t
      with _ | _ | ⟨r, in2⟩
    · exact fun hc => Result.noConfusion hc
    · exact absurd hb (bulk_no_assert _ ib 3 6 t (fun _ => rfl))
    · dsimp only
      split
      · split
        · exact fun hc => Result.noConfusion hc
        · exact fun hc => Result.noConfusion hc
      · exact fun hc => Result.noConfusion hc
  · intro ib t
    unfold liballuris_digits
    dsimp only
    rcases hb : liballuris_device_bulk_transfer [0x08, 3, 3] ib 3 6 t
      with _ | _ | ⟨r, in2⟩
    · exact fun hc => Result.noConfusion hc
    · exact absurd hb (bulk_no_assert _ ib 3 6 t (fun _ => rfl))
    · dsimp only
      split
      · split
        · exact fun hc => Result.noConfusion hc
        · exact fun hc => Result.noConfusion hc
      · exact fun hc => Result.noConfusion hc
  · intro ib t
    unfold liballuris_raw_value
    dsimp only
    rcases hb : liballuris_device_bulk_transfer [0x46, 3, 3] ib 3 6 t
      with _ | _ | ⟨r, in2⟩
    · exact fun hc => Result.noConfusion hc
    · exact absurd hb (bulk_no_assert _ ib 3 6 t (fun _ => rfl))
    · dsimp only
      split
      · exact fun hc => Result.noConfusion hc
      · exact fun hc => Result.noConfusion hc
  · intro ib t
    unfold liballuris_raw_pos_peak
    dsimp only
    rcases hb : liballuris_device_bulk_transfer [0x46, 3, 4] ib 3 6 t
      with _ | _ | ⟨r, in2⟩
    · exact fun hc => Result.noConfusion hc
    · exact absurd hb (bulk_no_assert _ ib 3 6 t (fun _ => rfl))
    · dsimp only
      split
      · exact fun hc => Result.noConfusion hc
      · exact fun hc => Result.noConfusion hc
  · intro ib t
    unfold liballuris_raw_neg_peak
    dsimp only
    rcases hb : liballuris_device_bulk_transfer [0x46, 3, 5] ib 3 6 t
      with _ | _ | ⟨r, in2⟩
    · exact fun hc => Result.noConfusion hc
    · exact absurd hb (bulk_no_assert _ ib 3 6 t (fun _ => rfl))
    · dsimp only
      split
      · exact fun hc => Result.noConfusion hc
      · exact fun hc => Result.noConfusion hc
  · intro ib t
    unfold liballuris_read_state
    dsimp only
    rcases hb : liballuris_device_bulk_transfer [0x46, 3, 2] ib 3 6 t
      with _ | _ | ⟨r, in2⟩
    · exact fun hc => Result.noConfusion hc
    · exact absurd hb (bulk_no_assert _ ib 3 6 t (fun _ => rfl))
    · dsimp only
      split
      · exact fun hc => Result.noConfusion hc
      · exact fun hc => Result.noConfusion hc
  · intro ib t enable n
    unfold liballuris_cyclic_measurement
    split
    · exact fun hc => Result.noConfusion hc
    · dsimp only
      rcases hb : liballuris_device_bulk_transfer
          [0x01, 4, if enable then 2 else 0, n] ib 4 4 t with _ | _ | ⟨r, in2⟩
      · exact fun hc => Result.noConfusion hc
      · exact absurd hb (bulk_no_assert _ ib 4 4 t (fun _ => rfl))
      · exact fun hc => Result.noConfusion hc
  · intro ib t n
    unfold liballuris_poll_measurement
    dsimp only
    rcases hb : liballuris_device_bulk_transfer [] ib 0 (5 + n * 3) t
      with _ | _ | ⟨r, in2⟩
    · exact fun hc => Result.noConfusion hc
    · exact absurd hb
        (bulk_no_assert _ ib 0 (5 + n * 3) t (fun hc => absurd hc (by omega)))
    · exact fun hc => Result.noConfusion hc
  · intro ib t
    unfold liballuris_tare
    dsimp only
    rcases hb : liballuris_device_bulk_transfer [0x15, 3, 0] ib 3 3 t
      with _ | _ | ⟨r, in2⟩
    · exact fun hc => Result.noConfusion hc
    · exact absurd hb (bulk_no_assert _ ib 3 3 t (fun _ => rfl))
    · exact fun hc => Result.noConfusion hc
  · intro ib t
    unfold liballuris_clear_pos_peak
    dsimp only
    rcases hb : liballuris_device_bulk_transfer [0x15, 3, 1] ib 3 3 t
      with _ | _ | ⟨r, in2⟩
    · exact fun hc => Result.noConfusion hc
    · exact absurd hb (bulk_no_assert _ ib 3 3 t (fun _ => rfl))
    · exact fun hc => Result.noConfusion hc
  · intro ib t
    unfold liballuris_clear_neg_peak
    dsimp only
    rcases hb : liballuris_device_bulk_transfer [0x15, 3, 2] ib 3 3 t
      with _ | _ | ⟨r, in2⟩
    · exact fun hc => Result.noConfusion hc
    · exact absurd hb (bulk_no_assert _ ib 3 3 t (fun _ => rfl))
    · exact fun hc => Result.noConfusion hc
  · intro ib t v
    unfold liballuris_set_pos_limit
    dsimp only
    rcases hb : liballuris_device_bulk_transfer
        [0x18, 6, 0, (int24_bytes v).1, (int24_bytes v).2.1, (int24_bytes v).2.2]
        ib 6 6 t with _ | _ | ⟨r, in2⟩
    · exact fun hc => Result.noConfusion hc
    · exact absurd hb (bulk_no_assert _ ib 6 6 t (fun _ => rfl))
    · exact fun hc => Result.noConfusion hc
  · intro ib t v
    unfold liballuris_set_neg_limit
    dsimp only
    rcases hb : liballuris_device_bulk_transfer
        [0x18, 6, 1, (int24_bytes v).1, (int24_bytes v).2.1, (int24_bytes v).2.2]
        ib 6 6 t with _ | _ | ⟨r, in2⟩
    · exact fun hc => Result.noConfusion hc
    · exact absurd hb (bulk_no_assert _ ib 6 6 t (fun _ => rfl))
    · exact fun hc => Result.noConfusion hc
  · intro ib t
    unfold liballuris_get_pos_limit
    dsimp only
    rcases hb : liballuris_device_bulk_transfer [0x19, 6, 0] ib 6 6 t
      with _ | _ | ⟨r, in2⟩
    · exact fun hc => Result.noConfusion hc
    · exact absurd hb (bulk_no_assert _ ib 6 6 t (fun _ => rfl))
    · dsimp only
      split
      · exact fun hc => Result.noConfusion hc
      · exact fun hc => Result.noConfusion hc
  · intro ib t
    unfold liballuris_get_neg_limit
    dsimp only
    rcases hb : liballuris_device_bulk_transfer [0x19, 6, 1] ib 6 6 t
      with _ | _ | ⟨r, in2⟩
    · exact fun hc => Result.noConfusion hc
    · exact absurd hb (bulk_no_assert _ ib 6 6 t (fun _ => rfl))
    · dsimp only
      split
      · exact fun hc => Result.noConfusion hc
      · exact fun hc => Result.noConfusion hc
  · intro ib t mode
    unfold liballuris_set_mode
    split
    · exact fun hc => Result.noConfusion hc
    · dsimp only
      rcases hb : liballuris_device_bulk_transfer [0x04, 3, mode.toNat] ib 3 3 t
        with _ | _ | ⟨r, in2⟩
      · exact fun hc => Result.noConfusion hc
      · exact absurd hb (bulk_no_assert _ ib 3 3 t (fun _ => rfl))
      · dsimp only
        split
        · exact fun hc => Result.noConfusion hc
        · exact fun hc => Result.noConfusion hc
  · intro ib t
    unfold liballuris_get_mode
    dsimp only
    rcases hb : liballuris_device_bulk_transfer [0x05, 2] ib 2 3 t
      with _ | _ | ⟨r, in2⟩
    · exact fun hc => Result.noConfusion hc
    · exact absurd hb (bulk_no_assert _ ib 2 3 t (fun _ => rfl))
    · dsimp only
      split
      · exact fun hc => Result.noConfusion hc
      · exact fun hc => Result.noConfusion hc
  · intro ib t reads
    unfold liballuris_start_measurement
    dsimp only
    rcases hb : liballuris_device_bulk_transfer [0x1C, 3, 1] ib 3 3 t
      with _ | _ | ⟨r, in2⟩
    · exact fun hc => Result.noConfusion hc
    · exact absurd hb (bulk_no_assert _ ib 3 3 t (fun _ => rfl))
    · dsimp only
      split
      · exact fun hc => Result.noConfusion hc
      · exact fun hc => Result.noConfusion hc
  · intro ib t reads
    unfold liballuris_stop_measurement
    dsimp only
    rcases hb : liballuris_device_bulk_transfer [0x1C, 3, 0] ib 3 3 t
      with _ | _ | ⟨r, in2⟩
    · exact fun hc => Result.noConfusion hc
    · exact absurd hb (bulk_no_assert _ ib 3 3 t (fun _ => rfl))
    · dsimp only
      split
      · exact fun hc => Result.noConfusion hc
      · exact fun hc => Result.noConfusion hc

/-- C9 witness: the serial-number command at a concrete transport does not
hit the assert. -/
theorem c9_out_buf_length_invariant_witness :
    liballuris_serial_number [1, 2, 3] ⟨0, 3, 0, 6, [8, 6, 0, 0, 0, 0]⟩ ≠
      .assertFail :=
  c9_out_buf_length_invariant.1 [1, 2, 3] ⟨0, 3, 0, 6, [8, 6, 0, 0, 0, 0]⟩

/-- C10: on the digits busy path (transport success and decoded 24-bit field
equal to -1) the caller's output location has already been written with -1
when device-busy is returned, whereas on the serial-number busy path the
caller's buffer is left unwritten. -/
theorem c10_busy_path_output :
    (∀ (in_buf : List Nat) (t : Transport) (in2 : List Nat),
      liballuris_device_bulk_transfer [0x08, 3, 3] in_buf 3 6 t =
        .done LIBALLURIS_SUCCESS in2 →
      char_to_int24 (in2.getD 3 0) (in2.getD 4 0) (in2.getD 5 0) = -1 →
      liballuris_digits in_buf t =
        .ret LIBALLURIS_DEVICE_BUSY (in2, some (-1))) ∧
    (∀ (in_buf : List Nat) (t : Transport) (in2 : List Nat),
      liballuris_device_bulk_transfer [0x08, 3, 6] in_buf 3 6 t =
        .done LIBALLURIS_SUCCESS in2 →
      char_to_uint16 (in2.getD 3 0) (in2.getD 4 0) = -1 →
      liballuris_serial_number in_buf t =
        .ret LIBALLURIS_DEVICE_BUSY (in2, none)) := by
  constructor
  · intro in_buf t in2 h hsent
    unfold liballuris_digits
    dsimp only
    rw [h]
    dsimp only
    rw [if_pos rfl, hsent, if_pos rfl]
  · intro in_buf t in2 h hsent
    unfold liballuris_serial_number
    dsimp only
    rw [h]
    dsimp only
    rw [if_pos rfl, if_pos hsent]

/-- C10 witness: a digits reply whose 24-bit field is 0xFFFFFF leaves -1 in
the output and returns busy; the corresponding serial reply leaves the
output unwritten. -/
theorem c10_busy_path_output_witness :
    liballuris_digits [9, 9, 9, 9, 9, 9] ⟨0, 3, 0, 6, [8, 6, 0, 255, 255, 255]⟩ =
      .ret LIBALLURIS_DEVICE_BUSY ([8, 6, 0, 255, 255, 255], some (-1)) ∧
    liballuris_serial_number [9, 9, 9, 9, 9, 9]
        ⟨0, 3, 0, 6, [8, 6, 1, 255, 255, 7]⟩ =
      .ret LIBALLURIS_DEVICE_BUSY ([8, 6, 1, 255, 255, 7], none) :=
  ⟨c10_busy_path_output.1 [9, 9, 9, 9, 9, 9]
     ⟨0, 3, 0, 6, [8, 6, 0, 255, 255, 255]⟩ [8, 6, 0, 255, 255, 255]
     (by decide) (by decide),
   c10_busy_path_output.2 [9, 9, 9, 9, 9, 9] ⟨0, 3, 0, 6, [8, 6, 1, 255, 255, 7]⟩
     [8, 6, 1, 255, 255, 7] (by decide) (by decide)⟩

end Alluris
